import Mathlib

/-!
Verification of the rt0s orbital risk-calculation engine.

The Python modules `utils/risk_calculator.py`, `satellite_tracker/orbit.py`,
`utils/trajectory.py` and the CPA solver consumed by `api/routes/risk.py`
are embedded as Lean definitions over the reals (the idealisation of the
source's float arithmetic), and the spec's testable properties are settled
as theorems about those definitions.
-/

open Real Filter

/-! ## Shared numeric helpers (Python semantics) -/

/-- Python `round(x)`: round half to even, returning an integer. -/
noncomputable def pyRoundInt (x : ℝ) : ℤ :=
  if Int.fract x < 1 / 2 then ⌊x⌋
  else if 1 / 2 < Int.fract x then ⌊x⌋ + 1
  else if ⌊x⌋ % 2 = 0 then ⌊x⌋ else ⌊x⌋ + 1

/-- Python `round(x, 1)`: round half to even at one decimal digit. -/
noncomputable def pyRound1 (x : ℝ) : ℝ := (pyRoundInt (10 * x) : ℝ) / 10

/-- Python `round(x, 2)`: round half to even at two decimal digits. -/
noncomputable def pyRound2 (x : ℝ) : ℝ := (pyRoundInt (100 * x) : ℝ) / 100

/-! ## utils/risk_calculator.py -/

def R_EARTH_KM : ℝ := 6371.0

def SEC_PER_YEAR : ℝ := 31536000

def INSURANCE_COEFFICIENT : ℝ := 1.5

/-- `assign_risk_class` from `utils/risk_calculator.py` (lines 25-41):
a chain of strict `>` threshold tests, worst class first. -/
noncomputable def assign_risk_class (collision_probability : ℝ) : String :=
  if collision_probability > 1e-2 then "F (Extremely High)"
  else if collision_probability > 1e-3 then "E (Very High)"
  else if collision_probability > 1e-4 then "D (High)"
  else if collision_probability > 1e-5 then "C (Moderate)"
  else if collision_probability > 1e-6 then "B (Low)"
  else if collision_probability > 1e-7 then "A (Very Low)"
  else "A+ (Minimal)"

/-- The dict returned by `calculate_collision_financial_risk` on success
(the `risk_class_description` lookup is omitted: it is a pure table lookup
from `risk_class`). -/
structure ShellRiskReport where
  financial_risk : ℝ
  collision_risk : ℝ
  insurance_premium : ℝ
  risk_class : String
  object_count : ℝ

/-- Shell volume `V = 4/3·π·(R_upper³ - R_lower³)` (line 60). -/
noncomputable def V_shell (H_upper H_lower : ℝ) : ℝ :=
  (4 / 3) * Real.pi * ((R_EARTH_KM + H_upper) ^ 3 - (R_EARTH_KM + H_lower) ^ 3)

/-- `expected_collisions = density * V_rel * A_effective_km2 * T_seconds`
(lines 65-69). -/
noncomputable def shell_expected_collisions
    (N_objects H_upper H_lower V_rel A_effective T_years : ℝ) : ℝ :=
  (N_objects / V_shell H_upper H_lower) * V_rel * (A_effective / 1000000)
    * (T_years * SEC_PER_YEAR)

/-- `P_collision = 1.0 - math.exp(-expected_collisions)` (line 70). -/
noncomputable def shell_P_collision
    (N_objects H_upper H_lower V_rel A_effective T_years : ℝ) : ℝ :=
  1.0 - Real.exp (-(shell_expected_collisions N_objects H_upper H_lower V_rel A_effective T_years))

/-- `calculate_collision_financial_risk` (lines 44-85).  The dict with an
`"error"` key is modelled as `Except.error`. -/
noncomputable def calculate_collision_financial_risk
    (N_objects H_upper H_lower V_rel A_effective T_years C_full D_lost : ℝ) :
    Except String ShellRiskReport :=
  if V_shell H_upper H_lower ≤ 0 then
    Except.error "Invalid altitude range, shell volume is zero or negative."
  else
    let P_collision := shell_P_collision N_objects H_upper H_lower V_rel A_effective T_years
    let total_cost_at_risk := C_full + D_lost
    let financial_risk := P_collision * total_cost_at_risk
    let insurance_premium := financial_risk * INSURANCE_COEFFICIENT
    Except.ok ⟨pyRound2 financial_risk, P_collision, pyRound2 insurance_premium,
      assign_risk_class P_collision, N_objects⟩

/-- The dict returned by `calculate_launch_collision_risk` on success. -/
structure LaunchRiskReport where
  financial_risk : ℝ
  collision_risk : ℝ
  insurance_premium : ℝ
  risk_class : String
  object_count : ℕ

/-- `p_one_conjunction` (lines 108-115): `A_rocket / (π·r²)`, with a special
case only when the corridor cross-section is exactly zero.  Note: no `min`
with `1.0` is applied. -/
noncomputable def launch_p_one_conjunction
    (N_conjunctions : ℕ) (launch_cylinder_radius_m A_rocket : ℝ) : ℝ :=
  let corridor_cross_section_m2 := Real.pi * launch_cylinder_radius_m ^ 2
  if corridor_cross_section_m2 = 0 then (if 0 < N_conjunctions then 1.0 else 0.0)
  else A_rocket / corridor_cross_section_m2

/-- `P_collision = 1.0 - (1.0 - p_one_conjunction) ** N_conjunctions` (line 119). -/
noncomputable def launch_P_collision
    (N_conjunctions : ℕ) (launch_cylinder_radius_m A_rocket : ℝ) : ℝ :=
  1.0 - (1.0 - launch_p_one_conjunction N_conjunctions launch_cylinder_radius_m A_rocket)
    ^ N_conjunctions

/-- `calculate_launch_collision_risk` (lines 88-141). -/
noncomputable def calculate_launch_collision_risk (N_conjunctions : ℕ)
    (launch_cylinder_radius_m A_rocket C_total_loss : ℝ) :
    Except String LaunchRiskReport :=
  if launch_cylinder_radius_m ≤ 0 then
    Except.error "Launch corridor radius must be positive."
  else
    let P_collision := launch_P_collision N_conjunctions launch_cylinder_radius_m A_rocket
    let financial_risk := P_collision * C_total_loss
    let insurance_premium := financial_risk * INSURANCE_COEFFICIENT
    Except.ok ⟨pyRound2 financial_risk, P_collision, pyRound2 insurance_premium,
      assign_risk_class P_collision, N_conjunctions⟩

/-! ## satellite_tracker/orbit.py -/

def MU_KM3_PER_S2 : ℝ := 398600.4418

def EARTH_RADIUS_KM : ℝ := 6378.137

/-- `_altitude_to_mean_motion` from `satellite_tracker/orbit.py` (lines 18-39).
The `period_seconds == 0` branch (where Python returns `inf`) is unreachable:
for `altitude_km ≥ 0` the period is strictly positive (see
`altitude_to_mean_motion_pos`); it is modelled by `0`.  The dead
`except ValueError` around the guarded `math.sqrt` is omitted. -/
noncomputable def altitude_to_mean_motion (altitude_km : ℝ) : ℝ :=
  if altitude_km < 0 then 0.0
  else
    let orbital_radius_km := EARTH_RADIUS_KM + altitude_km
    let period_seconds := 2 * Real.pi * Real.sqrt (orbital_radius_km ^ 3 / MU_KM3_PER_S2)
    if period_seconds = 0 then 0.0 else 86400.0 / period_seconds

/-- A TLE catalog entry as consumed by the congestion analyzer: the dict keys
`line1`/`line2` may be absent (`none`); `name` is not used by the filter. -/
structure SatData where
  name : String
  line1 : Option String
  line2 : Option String

/-- Python truthiness of `sat_data.get("line1")`: `not line1` is true both
for a missing key and for an empty string. -/
def py_truthy : Option String → Bool
  | none => false
  | some s => !(s == "")

/-- `mean_motion = satellite.model.no_kozai * (1440.0 / (2 * math.pi))`
(line 77): radians/minute converted to revolutions/day. -/
noncomputable def mean_motion_of (no_kozai : ℝ) : ℝ :=
  no_kozai * (1440.0 / (2 * Real.pi))

/-- `inclination_deg = math.degrees(satellite.model.inclo)` (line 78). -/
noncomputable def inclination_deg_of (inclo : ℝ) : ℝ :=
  inclo * (180 / Real.pi)

/-- One value of the congestion dict (lines 93-98). -/
structure CongestionCell where
  count : ℕ
  avg_inclination : ℝ
  avg_mean_motion : ℝ

/-- The congestion dict keyed by `(mean_motion_bin, inclination_bin)`;
`none` models an absent key. -/
def CongestionMap : Type := (ℝ × ℤ) → Option CongestionCell

def emptyCongestionMap : CongestionMap := fun _ => none

/-- `cell_key = (round(mean_motion, 1), int(round(inclination_deg)))`
(lines 89-91); `int(...)` of an integral float is the identity. -/
noncomputable def cellKey (mean_motion inclination_deg : ℝ) : ℝ × ℤ :=
  (pyRound1 mean_motion, pyRoundInt inclination_deg)

/-- Lines 93-110: get-or-initialise the cell for `key`, then apply the
incremental-mean update `avg = (avg*count + new)/(count+1)`. -/
noncomputable def updateCell (m : CongestionMap) (key : ℝ × ℤ)
    (mean_motion inclination_deg : ℝ) : CongestionMap :=
  fun k =>
    if k = key then
      let data := (m key).getD ⟨0, 0.0, 0.0⟩
      let current_count := data.count
      let new_count := current_count + 1
      some ⟨new_count,
        (data.avg_inclination * (current_count : ℝ) + inclination_deg) / (new_count : ℝ),
        (data.avg_mean_motion * (current_count : ℝ) + mean_motion) / (new_count : ℝ)⟩
    else m k

/-- The body of the per-object loop of `calculate_orbit_congestion_by_altitude`
(lines 67-114) acting on the state `(congestion_map, filtered_satellites)`.
`propagate` abstracts the external skyfield propagation: given the two TLE
lines it returns `(model.no_kozai, model.inclo)`, or `none` when the
`EarthSatellite` construction throws (the silently-skipped case). -/
noncomputable def processObject (propagate : String → String → Option (ℝ × ℝ))
    (min_mean_motion_filter max_mean_motion_filter min_inclination max_inclination : ℝ)
    (st : CongestionMap × List SatData) (sat_data : SatData) :
    CongestionMap × List SatData :=
  if py_truthy sat_data.line1 && py_truthy sat_data.line2 then
    match propagate (sat_data.line1.getD "") (sat_data.line2.getD "") with
    | none => st
    | some (no_kozai, inclo) =>
      let mean_motion := mean_motion_of no_kozai
      let inclination_deg := inclination_deg_of inclo
      if min_mean_motion_filter ≤ mean_motion ∧ mean_motion ≤ max_mean_motion_filter then
        if min_inclination ≤ inclination_deg ∧ inclination_deg ≤ max_inclination then
          (updateCell st.1 (cellKey mean_motion inclination_deg) mean_motion inclination_deg,
            st.2 ++ [sat_data])
        else st
      else st
  else st

/-- `calculate_orbit_congestion_by_altitude` (lines 42-116).  The
`try/except ValueError` around the two bound conversions is dead code
(`_altitude_to_mean_motion` cannot raise) and is omitted. -/
noncomputable def calculate_orbit_congestion_by_altitude
    (propagate : String → String → Option (ℝ × ℝ)) (tle_data_dicts : List SatData)
    (min_altitude_km max_altitude_km min_inclination max_inclination : ℝ) :
    CongestionMap × List SatData :=
  let max_mean_motion_filter := altitude_to_mean_motion min_altitude_km
  let min_mean_motion_filter := altitude_to_mean_motion max_altitude_km
  tle_data_dicts.foldl
    (processObject propagate min_mean_motion_filter max_mean_motion_filter
      min_inclination max_inclination)
    (emptyCongestionMap, [])

/-- Specification-side view of one object: its `(mean_motion, inclination_deg)`
when it passes every filter of the congestion analyzer, `none` otherwise. -/
noncomputable def extractAccepted (propagate : String → String → Option (ℝ × ℝ))
    (min_mm max_mm min_incl max_incl : ℝ) (sat_data : SatData) : Option (ℝ × ℝ) :=
  if py_truthy sat_data.line1 && py_truthy sat_data.line2 then
    match propagate (sat_data.line1.getD "") (sat_data.line2.getD "") with
    | none => none
    | some (no_kozai, inclo) =>
      let mean_motion := mean_motion_of no_kozai
      let inclination_deg := inclination_deg_of inclo
      if min_mm ≤ mean_motion ∧ mean_motion ≤ max_mm then
        if min_incl ≤ inclination_deg ∧ inclination_deg ≤ max_incl then
          some (mean_motion, inclination_deg)
        else none
      else none
  else none

/-- The `(mean_motion, inclination_deg)` pairs of the accepted objects, in
input order. -/
noncomputable def acceptedData (propagate : String → String → Option (ℝ × ℝ))
    (min_mm max_mm min_incl max_incl : ℝ) (objs : List SatData) : List (ℝ × ℝ) :=
  objs.filterMap (extractAccepted propagate min_mm max_mm min_incl max_incl)

/-- The congestion map built by folding the incremental update over a list of
accepted `(mean_motion, inclination_deg)` pairs. -/
noncomputable def buildCongestionMap (l : List (ℝ × ℝ)) : CongestionMap :=
  l.foldl (fun m p => updateCell m (cellKey p.1 p.2) p.1 p.2) emptyCongestionMap

/-- The accepted pairs that fall into the cell keyed `k`. -/
noncomputable def cellMembers (l : List (ℝ × ℝ)) (k : ℝ × ℤ) : List (ℝ × ℝ) :=
  l.filter (fun p => decide (cellKey p.1 p.2 = k))

/-! ## utils/trajectory.py -/

/-- Python `math.atan2 y x`, embedded as the complex argument of `x + y·i`
(same value, same range `(-π, π]`). -/
noncomputable def atan2 (y x : ℝ) : ℝ := Complex.arg ⟨x, y⟩

/-- `get_point_at_distance` (lines 12-36): the spherical direct geodesic
formula; `math.radians`/`math.degrees` are the exact scalings by `π/180`. -/
noncomputable def get_point_at_distance (lat1 lon1 distance_km bearing_deg : ℝ) : ℝ × ℝ :=
  let lat1_rad := lat1 * (Real.pi / 180)
  let lon1_rad := lon1 * (Real.pi / 180)
  let bearing_rad := bearing_deg * (Real.pi / 180)
  let lat2_rad := Real.arcsin (Real.sin lat1_rad * Real.cos (distance_km / R_EARTH_KM)
    + Real.cos lat1_rad * Real.sin (distance_km / R_EARTH_KM) * Real.cos bearing_rad)
  let lon2_rad := lon1_rad + atan2
    (Real.sin bearing_rad * Real.sin (distance_km / R_EARTH_KM) * Real.cos lat1_rad)
    (Real.cos (distance_km / R_EARTH_KM) - Real.sin lat1_rad * Real.sin lat2_rad)
  (lat2_rad * (180 / Real.pi), lon2_rad * (180 / Real.pi))

/-- One entry of `geo_points` (lines 74-81). -/
structure GeoPoint where
  time_s : ℤ
  lat : ℝ
  lon : ℝ
  alt : ℝ

/-- One entry of the returned trajectory: `time_obj` is seconds since the
epoch, `position` in km, `velocity` in km/s. -/
structure TrajectoryPoint where
  time_obj : ℝ
  position : ℝ × ℝ × ℝ
  velocity : ℝ × ℝ × ℝ

/-- Python `int(x)`: truncation toward zero. -/
noncomputable def pyInt (x : ℝ) : ℤ := if 0 ≤ x then ⌊x⌋ else ⌈x⌉

/-- Python `range(0, stop, 10)` as a list of integers. -/
def pyRange10 (stop : ℤ) : List ℤ :=
  (List.range ((stop + 9).toNat / 10)).map (fun (i : ℕ) => 10 * (i : ℤ))

/-- Step 1 of `generate_simplified_trajectory` (lines 63-81): the geographic
points at 10 s steps.  `range(0, int(ascent_time_s) + time_step_s, time_step_s)`
is `pyRange10 (pyInt ascent_time_s + 10)`. -/
noncomputable def simplified_geo_points
    (launch_lat launch_lon target_altitude_km ascent_time_s inclination_deg : ℝ) :
    List GeoPoint :=
  let launch_azimuth_deg : ℝ := if inclination_deg < 90 then 90.0 else 0.0
  let avg_horizontal_speed_km_s : ℝ := 4.0
  let total_downrange_distance_km := avg_horizontal_speed_km_s * ascent_time_s
  (pyRange10 (pyInt ascent_time_s + 10)).map (fun (time_s : ℤ) =>
    let progress0 : ℝ := if ascent_time_s > 0 then (time_s : ℝ) / ascent_time_s else 0
    let progress := min progress0 1.0
    let current_altitude_km := progress * target_altitude_km
    let current_distance_km := progress * total_downrange_distance_km
    let p := get_point_at_distance launch_lat launch_lon current_distance_km
      launch_azimuth_deg
    ⟨time_s, p.1, p.2, current_altitude_km⟩)

/-- `wgs84.latlon(lat, lon, elevation_m=alt*1000).at(t).position.km` for a
geographic point (lines 100-104 and 119-122), with the external skyfield
transform abstracted as `wgs84_at` taking `(lat, lon, elevation_m, seconds)`.
-/
noncomputable def geo_state_pos (wgs84_at : ℝ → ℝ → ℝ → ℝ → ℝ × ℝ × ℝ)
    (launch_date : ℝ) (g : GeoPoint) : ℝ × ℝ × ℝ :=
  wgs84_at g.lat g.lon (g.alt * 1000) (launch_date + (g.time_s : ℝ))

/-- The loop of lines 88-112: one trajectory point per consecutive pair of
geographic points, with `velocity = (pos2 - pos1) / time_step_s` and
`time_step_s = 10`. -/
noncomputable def raw_trajectory (wgs84_at : ℝ → ℝ → ℝ → ℝ → ℝ × ℝ × ℝ)
    (launch_date : ℝ) (geo_points : List GeoPoint) : List TrajectoryPoint :=
  (geo_points.zip geo_points.tail).map (fun pq =>
    let pos1_vec := geo_state_pos wgs84_at launch_date pq.1
    let pos2_vec := geo_state_pos wgs84_at launch_date pq.2
    ⟨launch_date + (pq.1.time_s : ℝ), pos1_vec, ((10 : ℝ))⁻¹ • (pos2_vec - pos1_vec)⟩)

/-- Step 2 of `generate_simplified_trajectory` (lines 83-132): return `[]`
when fewer than two geographic points result; otherwise append a final point
at the last geographic point reusing the prior segment velocity
(`trajectory[-1]['velocity']`, line 128).  The `getD` defaults are never used:
they stand for the list indexing that Python performs only on a non-empty
list (`if trajectory:`). -/
noncomputable def trajectory_from_geo_points (wgs84_at : ℝ → ℝ → ℝ → ℝ → ℝ × ℝ × ℝ)
    (launch_date : ℝ) (geo_points : List GeoPoint) : List TrajectoryPoint :=
  if geo_points.length < 2 then []
  else
    let trajectory := raw_trajectory wgs84_at launch_date geo_points
    if trajectory.isEmpty then trajectory
    else
      let last_geo_point := geo_points.getLast?.getD ⟨0, 0, 0, 0⟩
      let prior_velocity := (trajectory.getLast?.map (fun q => q.velocity)).getD 0
      trajectory ++ [⟨launch_date + (last_geo_point.time_s : ℝ),
        geo_state_pos wgs84_at launch_date last_geo_point, prior_velocity⟩]

/-- `generate_simplified_trajectory` (lines 39-132): step 1 then step 2. -/
noncomputable def generate_simplified_trajectory
    (wgs84_at : ℝ → ℝ → ℝ → ℝ → ℝ × ℝ × ℝ)
    (launch_lat launch_lon target_altitude_km ascent_time_s inclination_deg
      launch_date : ℝ) :
    List TrajectoryPoint :=
  trajectory_from_geo_points wgs84_at launch_date
    (simplified_geo_points launch_lat launch_lon target_altitude_km ascent_time_s
      inclination_deg)

/-! ## CPA solver (utils/cpa_calculator.py, absent from src) -/

/-- The `{"time": ..., "distance": ...}` dict of the CPA solver. -/
structure CPAResult where
  time : ℝ
  distance : ℝ

def dot3 (a b : ℝ × ℝ × ℝ) : ℝ := a.1 * b.1 + a.2.1 * b.2.1 + a.2.2 * b.2.2

noncomputable def norm3 (a : ℝ × ℝ × ℝ) : ℝ := Real.sqrt (dot3 a a)

/-- Tolerance standing for the spec's "near-zero" relative-velocity test. -/
def CPA_EPSILON : ℝ := 1e-12

/-- Modelled from the spec: `calculate_cpa` lives in `utils/cpa_calculator.py`,
which `src/api/routes/risk.py` imports (line 15) but which is not present
under `src/`.  Spec §4.4: relative position `Δp = pos_b - pos_a`, relative
velocity `Δv = vel_b - vel_a`, time to minimum separation
`t* = -(Δp·Δv)/(Δv·Δv)` — zero if `Δv` is near-zero — and minimum distance
`‖Δp + t*·Δv‖`. -/
noncomputable def calculate_cpa (pos_a vel_a pos_b vel_b : ℝ × ℝ × ℝ) : CPAResult :=
  let dp := pos_b - pos_a
  let dv := vel_b - vel_a
  let dvv := dot3 dv dv
  let t_star := if dvv ≤ CPA_EPSILON then 0 else -(dot3 dp dv) / dvv
  ⟨t_star, norm3 (dp + t_star • dv)⟩

/-- A propagator stub whose `(no_kozai, inclo)` yield mean motion `1` rev/day
and inclination `45°` after the code's unit conversions. -/
noncomputable def propagateW : String → String → Option (ℝ × ℝ) :=
  fun _ _ => some (Real.pi / 720, Real.pi / 4)

def satW : SatData := ⟨"SAT", some "L1", some "L2"⟩

/-! ## Claim theorems (risk classification) -/

/-- C2: `assign_risk_class` uses strict greater-than thresholds evaluated
worst-to-best with first match winning: F iff `p > 1e-2`, else E iff
`p > 1e-3`, else D iff `p > 1e-4`, else C iff `p > 1e-5`, else B iff
`p > 1e-6`, else A iff `p > 1e-7`, else A+; a probability exactly at a
boundary falls into the lower class (`1e-2` maps to E, not F). -/
theorem assign_risk_class_strict_thresholds (p : ℝ) :
    (assign_risk_class p = "F (Extremely High)" ↔ 1e-2 < p) ∧
    (assign_risk_class p = "E (Very High)" ↔ (1e-3 < p ∧ p ≤ 1e-2)) ∧
    (assign_risk_class p = "D (High)" ↔ (1e-4 < p ∧ p ≤ 1e-3)) ∧
    (assign_risk_class p = "C (Moderate)" ↔ (1e-5 < p ∧ p ≤ 1e-4)) ∧
    (assign_risk_class p = "B (Low)" ↔ (1e-6 < p ∧ p ≤ 1e-5)) ∧
    (assign_risk_class p = "A (Very Low)" ↔ (1e-7 < p ∧ p ≤ 1e-6)) ∧
    (assign_risk_class p = "A+ (Minimal)" ↔ p ≤ 1e-7) ∧
    assign_risk_class (1e-2 : ℝ) = "E (Very High)" := by
  have hb : assign_risk_class (1e-2 : ℝ) = "E (Very High)" := by
    unfold assign_risk_class
    norm_num
  refine ⟨?_, ?_, ?_, ?_, ?_, ?_, ?_, hb⟩ <;>
    · unfold assign_risk_class
      split_ifs with h1 h2 h3 h4 h5 h6 <;> simp_all <;> intros <;> linarith

/-! ## Helper lemmas: the conjunction-count model -/

lemma corridor_pos {r : ℝ} (hr : 0 < r) : 0 < Real.pi * r ^ 2 := by positivity

lemma launch_p_one_eq (N : ℕ) {r : ℝ} (hr : 0 < r) (A : ℝ) :
    launch_p_one_conjunction N r A = A / (Real.pi * r ^ 2) := by
  unfold launch_p_one_conjunction
  rw [if_neg (corridor_pos hr).ne']

lemma launch_P_eq (N : ℕ) {r : ℝ} (hr : 0 < r) (A : ℝ) :
    launch_P_collision N r A = 1 - (1 - A / (Real.pi * r ^ 2)) ^ N := by
  unfold launch_P_collision
  rw [launch_p_one_eq N hr A]
  norm_num

/-- C1: the claim as stated is false: the code applies no `min(·, 1.0)` cap to
the per-conjunction probability.  At `N = 1`, radius `1` m, `A_rocket = 10` m²
the computed `p_one` is `10/π ≈ 3.18`, not `min(10/π, 1) = 1`, and the
reported collision probability `1 - (1-p)^N = 10/π` exceeds `1`. -/
theorem launch_p_one_uncapped_cex :
    launch_p_one_conjunction 1 1 10 ≠ min (10 / (Real.pi * 1 ^ 2)) 1 ∧
    1 < launch_P_collision 1 1 10 := by
  have hpi := Real.pi_gt_three
  have hpi' := Real.pi_lt_d2
  have h1 : (1 : ℝ) < 10 / (Real.pi * 1 ^ 2) := by
    rw [one_pow, mul_one, lt_div_iff₀ Real.pi_pos]
    linarith
  constructor
  · rw [launch_p_one_eq 1 one_pos 10, min_eq_right h1.le]
    exact ne_of_gt h1
  · rw [launch_P_eq 1 one_pos 10]
    simp only [pow_one]
    linarith

/-- C1 amended: the code computes the per-conjunction probability as the
uncapped ratio `A_rocket / (π·radius²)`; it agrees with the claimed
`min(A_rocket/(π·radius²), 1.0)` — and the reported collision probability
`1 - (1-p)^N` lies in `[0,1]` — under the additional hypothesis
`A_rocket ≤ π·radius²` (forced by the counterexample above). -/
theorem launch_p_one_and_P_capped (N : ℕ) (r A : ℝ) (hr : 0 < r) (hA : 0 ≤ A)
    (hcap : A ≤ Real.pi * r ^ 2) :
    launch_p_one_conjunction N r A = A / (Real.pi * r ^ 2) ∧
    launch_p_one_conjunction N r A = min (A / (Real.pi * r ^ 2)) 1 ∧
    0 ≤ launch_P_collision N r A ∧ launch_P_collision N r A ≤ 1 := by
  have hc := corridor_pos hr
  have hple : A / (Real.pi * r ^ 2) ≤ 1 := (div_le_one hc).mpr hcap
  have hpge : 0 ≤ A / (Real.pi * r ^ 2) := div_nonneg hA hc.le
  refine ⟨launch_p_one_eq N hr A, ?_, ?_, ?_⟩
  · rw [launch_p_one_eq N hr A, min_eq_left hple]
  · rw [launch_P_eq N hr A]
    have := pow_le_one₀ (a := 1 - A / (Real.pi * r ^ 2)) (by linarith) (by linarith) (n := N)
    linarith
  · rw [launch_P_eq N hr A]
    have := pow_nonneg (a := 1 - A / (Real.pi * r ^ 2)) (by linarith) N
    linarith

theorem launch_p_one_and_P_capped_witness :
    ((0:ℝ) < 1 ∧ (0:ℝ) ≤ 1 ∧ (1:ℝ) ≤ Real.pi * 1 ^ 2) ∧
    (launch_p_one_conjunction 2 1 1 = 1 / (Real.pi * 1 ^ 2) ∧
     launch_p_one_conjunction 2 1 1 = min (1 / (Real.pi * 1 ^ 2)) 1 ∧
     0 ≤ launch_P_collision 2 1 1 ∧ launch_P_collision 2 1 1 ≤ 1) :=
  ⟨⟨by norm_num, by norm_num, by nlinarith [Real.pi_gt_three]⟩,
   launch_p_one_and_P_capped 2 1 1 (by norm_num) (by norm_num)
     (by nlinarith [Real.pi_gt_three])⟩

/-- C8: the claim as stated is false: with radius `1` m and `A_rocket = 10` m²
the per-conjunction ratio is `10/π > 1`, and the collision probability is not
monotonically increasing in `N_conjunctions`: it decreases from `N = 1` to
`N = 2`. -/
theorem launch_P_not_monotone_cex :
    launch_P_collision 2 1 10 < launch_P_collision 1 1 10 := by
  have hpi := Real.pi_gt_three
  have hpi' := Real.pi_lt_d2
  have h1 : (1 : ℝ) < 10 / (Real.pi * 1 ^ 2) := by
    rw [one_pow, mul_one, lt_div_iff₀ Real.pi_pos]
    linarith
  rw [launch_P_eq 2 one_pos 10, launch_P_eq 1 one_pos 10]
  have hexp : (1 - 10 / (Real.pi * 1 ^ 2)) ^ 1 - (1 - 10 / (Real.pi * 1 ^ 2)) ^ 2 =
      (10 / (Real.pi * 1 ^ 2)) * (1 - 10 / (Real.pi * 1 ^ 2)) := by ring
  nlinarith [mul_pos (lt_trans one_pos h1) (sub_pos.mpr h1)]

/-- C8 amended: with corridor radius `> 0` and under the additional hypothesis
`A_rocket ≤ π·radius²` (forced by the counterexample above, which needs
`p > 1`): the collision probability is exactly `0` at `N = 0`, is monotonically
increasing in `N_conjunctions` and in `A_rocket` (the latter within the cap),
and saturates at `1.0` as `N → ∞` whenever the per-conjunction probability is
positive, i.e. `A_rocket > 0`. -/
theorem launch_P_monotone_and_saturates (r A : ℝ) (hr : 0 < r) (hA : 0 ≤ A)
    (hcap : A ≤ Real.pi * r ^ 2) :
    launch_P_collision 0 r A = 0 ∧
    (∀ N M : ℕ, N ≤ M → launch_P_collision N r A ≤ launch_P_collision M r A) ∧
    (∀ A₂ : ℝ, A ≤ A₂ → A₂ ≤ Real.pi * r ^ 2 → ∀ N : ℕ,
      launch_P_collision N r A ≤ launch_P_collision N r A₂) ∧
    (0 < A → Tendsto (fun N : ℕ => launch_P_collision N r A) atTop (nhds 1)) := by
  have hc := corridor_pos hr
  have hple : A / (Real.pi * r ^ 2) ≤ 1 := (div_le_one hc).mpr hcap
  have hpge : 0 ≤ A / (Real.pi * r ^ 2) := div_nonneg hA hc.le
  refine ⟨?_, ?_, ?_, ?_⟩
  · rw [launch_P_eq 0 hr A, pow_zero, sub_self]
  · intro N M hNM
    rw [launch_P_eq N hr A, launch_P_eq M hr A]
    have := pow_le_pow_of_le_one (a := 1 - A / (Real.pi * r ^ 2))
      (by linarith) (by linarith) hNM
    linarith
  · intro A₂ h12 hcap₂ N
    rw [launch_P_eq N hr A, launch_P_eq N hr A₂]
    have hb₂ : 0 ≤ 1 - A₂ / (Real.pi * r ^ 2) := by
      have : A₂ / (Real.pi * r ^ 2) ≤ 1 := (div_le_one hc).mpr hcap₂
      linarith
    have hbb : 1 - A₂ / (Real.pi * r ^ 2) ≤ 1 - A / (Real.pi * r ^ 2) := by
      have : A / (Real.pi * r ^ 2) ≤ A₂ / (Real.pi * r ^ 2) := by gcongr
      linarith
    have := pow_le_pow_left₀ hb₂ hbb N
    linarith
  · intro hApos
    have hfun : (fun N : ℕ => launch_P_collision N r A) =
        fun N : ℕ => 1 - (1 - A / (Real.pi * r ^ 2)) ^ N := by
      funext N
      exact launch_P_eq N hr A
    rw [hfun]
    have hlt : 1 - A / (Real.pi * r ^ 2) < 1 := by
      have : 0 < A / (Real.pi * r ^ 2) := div_pos hApos hc
      linarith
    have h0 : Tendsto (fun N : ℕ => (1 - A / (Real.pi * r ^ 2)) ^ N) atTop (nhds 0) :=
      tendsto_pow_atTop_nhds_zero_of_lt_one (by linarith) hlt
    have := h0.const_sub 1
    simpa using this

theorem launch_P_monotone_and_saturates_witness :
    ((0:ℝ) < 1 ∧ (0:ℝ) ≤ 1 ∧ (1:ℝ) ≤ Real.pi * 1 ^ 2) ∧
    (launch_P_collision 0 1 1 = 0 ∧
     (∀ N M : ℕ, N ≤ M → launch_P_collision N 1 1 ≤ launch_P_collision M 1 1) ∧
     (∀ A₂ : ℝ, 1 ≤ A₂ → A₂ ≤ Real.pi * 1 ^ 2 → ∀ N : ℕ,
       launch_P_collision N 1 1 ≤ launch_P_collision N 1 A₂) ∧
     ((0:ℝ) < 1 → Tendsto (fun N : ℕ => launch_P_collision N 1 1) atTop (nhds 1))) :=
  ⟨⟨by norm_num, by norm_num, by nlinarith [Real.pi_gt_three]⟩,
   launch_P_monotone_and_saturates 1 1 (by norm_num) (by norm_num)
     (by nlinarith [Real.pi_gt_three])⟩

/-! ## Helper lemmas: the shell density model -/

lemma shell_expected_le {Hu Hl : ℝ} (hV : 0 < V_shell Hu Hl)
    {N N₂ V V₂ A A₂ T T₂ : ℝ} (hN0 : 0 ≤ N) (hN : N ≤ N₂) (hV0 : 0 ≤ V) (hVr : V ≤ V₂)
    (hA0 : 0 ≤ A) (hA : A ≤ A₂) (hT0 : 0 ≤ T) (hT : T ≤ T₂) :
    shell_expected_collisions N Hu Hl V A T ≤ shell_expected_collisions N₂ Hu Hl V₂ A₂ T₂ := by
  have hs : (0:ℝ) ≤ SEC_PER_YEAR := by norm_num [SEC_PER_YEAR]
  have hN₂ : 0 ≤ N₂ := hN0.trans hN
  have hV₂ : 0 ≤ V₂ := hV0.trans hVr
  have hA₂ : 0 ≤ A₂ := hA0.trans hA
  have hT₂ : 0 ≤ T₂ := hT0.trans hT
  have k1 : 0 ≤ N₂ / V_shell Hu Hl := div_nonneg hN₂ hV.le
  have k2 : 0 ≤ N₂ / V_shell Hu Hl * V₂ := mul_nonneg k1 hV₂
  have k3 : 0 ≤ N₂ / V_shell Hu Hl * V₂ * (A₂ / 1000000) :=
    mul_nonneg k2 (div_nonneg hA₂ (by norm_num))
  unfold shell_expected_collisions
  gcongr

lemma shell_P_le {Hu Hl : ℝ} (hV : 0 < V_shell Hu Hl)
    {N N₂ V V₂ A A₂ T T₂ : ℝ} (hN0 : 0 ≤ N) (hN : N ≤ N₂) (hV0 : 0 ≤ V) (hVr : V ≤ V₂)
    (hA0 : 0 ≤ A) (hA : A ≤ A₂) (hT0 : 0 ≤ T) (hT : T ≤ T₂) :
    shell_P_collision N Hu Hl V A T ≤ shell_P_collision N₂ Hu Hl V₂ A₂ T₂ := by
  unfold shell_P_collision
  have h := shell_expected_le hV hN0 hN hV0 hVr hA0 hA hT0 hT
  have := Real.exp_le_exp.mpr (neg_le_neg h)
  linarith

lemma V_shell_100_0_pos : 0 < V_shell 100 0 := by
  have h : (0:ℝ) < (R_EARTH_KM + 100) ^ 3 - (R_EARTH_KM + 0) ^ 3 := by
    norm_num [R_EARTH_KM]
  exact mul_pos (mul_pos (by norm_num) Real.pi_pos) h

/-- C7: in the shell density model, with positive shell volume and all inputs
non-negative, the collision probability `1 - exp(-density·V_rel·A_eff·T)` is
monotonically increasing (non-decreasing) in object count, relative velocity,
effective cross-section area and mission duration, each holding the others
fixed, and equals exactly `0` when the object count is `0`. -/
theorem shell_P_zero_and_monotone (Hu Hl : ℝ) (hV : 0 < V_shell Hu Hl) :
    (∀ V A T : ℝ, shell_P_collision 0 Hu Hl V A T = 0) ∧
    (∀ N N₂ V A T : ℝ, 0 ≤ N → N ≤ N₂ → 0 ≤ V → 0 ≤ A → 0 ≤ T →
      shell_P_collision N Hu Hl V A T ≤ shell_P_collision N₂ Hu Hl V A T) ∧
    (∀ N V V₂ A T : ℝ, 0 ≤ N → 0 ≤ V → V ≤ V₂ → 0 ≤ A → 0 ≤ T →
      shell_P_collision N Hu Hl V A T ≤ shell_P_collision N Hu Hl V₂ A T) ∧
    (∀ N V A A₂ T : ℝ, 0 ≤ N → 0 ≤ V → 0 ≤ A → A ≤ A₂ → 0 ≤ T →
      shell_P_collision N Hu Hl V A T ≤ shell_P_collision N Hu Hl V A₂ T) ∧
    (∀ N V A T T₂ : ℝ, 0 ≤ N → 0 ≤ V → 0 ≤ A → 0 ≤ T → T ≤ T₂ →
      shell_P_collision N Hu Hl V A T ≤ shell_P_collision N Hu Hl V A T₂) := by
  refine ⟨?_, ?_, ?_, ?_, ?_⟩
  · intro V A T
    simp [shell_P_collision, shell_expected_collisions]
    norm_num
  · intro N N₂ V A T h1 h2 h3 h4 h5
    exact shell_P_le hV h1 h2 h3 le_rfl h4 le_rfl h5 le_rfl
  · intro N V V₂ A T h1 h2 h3 h4 h5
    exact shell_P_le hV h1 le_rfl h2 h3 h4 le_rfl h5 le_rfl
  · intro N V A A₂ T h1 h2 h3 h4 h5
    exact shell_P_le hV h1 le_rfl h2 le_rfl h3 h4 h5 le_rfl
  · intro N V A T T₂ h1 h2 h3 h4 h5
    exact shell_P_le hV h1 le_rfl h2 le_rfl h3 le_rfl h4 h5

theorem shell_P_zero_and_monotone_witness :
    0 < V_shell 100 0 ∧ shell_P_collision 0 100 0 7 1 1 = 0 ∧
    shell_P_collision 2 100 0 7 1 1 ≤ shell_P_collision 3 100 0 7 1 1 :=
  ⟨V_shell_100_0_pos,
   (shell_P_zero_and_monotone 100 0 V_shell_100_0_pos).1 7 1 1,
   (shell_P_zero_and_monotone 100 0 V_shell_100_0_pos).2.1 2 3 7 1 1
     (by norm_num) (by norm_num) (by norm_num) (by norm_num) (by norm_num)⟩

/-! ## Helper lemmas: Python rounding -/

lemma pyRound2_eq_zero {x : ℝ} (h0 : 0 ≤ x) (h : x < 1 / 200) : pyRound2 x = 0 := by
  have hfl : ⌊(100 : ℝ) * x⌋ = 0 := by
    rw [Int.floor_eq_zero_iff, Set.mem_Ico]
    constructor <;> linarith
  have hfr : Int.fract ((100 : ℝ) * x) < 1 / 2 := by
    simp only [Int.fract, hfl, Int.cast_zero, sub_zero]
    linarith
  unfold pyRound2 pyRoundInt
  rw [if_pos hfr, hfl]
  norm_num

lemma assign_risk_class_eq_D {p : ℝ} (h1 : 1e-4 < p) (h2 : p ≤ 1e-3) :
    assign_risk_class p = "D (High)" := by
  unfold assign_risk_class
  rw [if_neg (not_lt.mpr (show p ≤ 1e-2 by norm_num at h2 ⊢; linarith)),
    if_neg (not_lt.mpr h2), if_pos h1]

/-- C3: the claim as stated is false: the returned `financial_risk` and
`insurance_premium` fields are rounded to 2 decimal digits (Python
`round(x, 2)`), so they do not equal the exact products.  With
`N_conjunctions = 1`, radius `1` m, `A_rocket = 0.001` m², `C_total_loss = 1`:
the collision probability is `1/(1000π) ≈ 3.18e-4`, the product
`P × C_total_loss` is positive, but the returned `financial_risk` is `0`. -/
theorem launch_risk_rounded_fields_cex :
    calculate_launch_collision_risk 1 1 (1 / 1000) 1 =
      Except.ok ⟨0, 1 / (1000 * Real.pi), 0, "D (High)", 1⟩ ∧
    1 / (1000 * Real.pi) * 1 ≠ (0 : ℝ) := by
  have hpi := Real.pi_gt_three
  have hpi2 := Real.pi_lt_d2
  have hppos : (0:ℝ) < 1 / (1000 * Real.pi) := by positivity
  have hP : launch_P_collision 1 1 (1 / 1000) = 1 / (1000 * Real.pi) := by
    rw [launch_P_eq 1 one_pos (1 / 1000), pow_one, one_pow, mul_one, div_div]
    ring
  have hsmall : 1 / (1000 * Real.pi) < 1 / 200 := by
    rw [div_lt_div_iff (by positivity) (by norm_num)]
    nlinarith
  constructor
  · unfold calculate_launch_collision_risk
    rw [if_neg (by norm_num : ¬((1:ℝ) ≤ 0))]
    rw [hP]
    simp only [Except.ok.injEq, LaunchRiskReport.mk.injEq]
    refine ⟨?_, trivial, ?_, ?_, trivial⟩
    · rw [mul_one]
      exact pyRound2_eq_zero hppos.le hsmall
    · have he : 1 / (1000 * Real.pi) * 1 * INSURANCE_COEFFICIENT =
          3 / (2000 * Real.pi) := by
        rw [INSURANCE_COEFFICIENT]
        field_simp
        ring
      rw [he]
      refine pyRound2_eq_zero (by positivity) ?_
      rw [div_lt_div_iff (by positivity) (by norm_num)]
      nlinarith
    · refine assign_risk_class_eq_D ?_ ?_
      · rw [show (1e-4 : ℝ) = 1 / 10000 by norm_num,
          div_lt_div_iff (by norm_num) (by positivity)]
        nlinarith
      · rw [show (1e-3 : ℝ) = 1 / 1000 by norm_num,
          div_le_div_iff (by positivity) (by norm_num)]
        nlinarith
  · positivity

/-- C3 amended: for every successfully computed risk report of either
pipeline, the returned fields satisfy
`financial_risk = round₂(P_collision × total_cost_at_risk)` and
`insurance_premium = round₂(P_collision × total_cost_at_risk × 1.5)` —
i.e. the claimed products hold up to the final rounding to two decimal
digits that the code applies to the returned dict (the unrounded
`collision_probability` field itself is returned exactly). -/
theorem risk_report_fields_rounded :
    (∀ N Hu Hl V A T Cf Dl : ℝ, 0 < V_shell Hu Hl →
      calculate_collision_financial_risk N Hu Hl V A T Cf Dl =
        Except.ok ⟨pyRound2 (shell_P_collision N Hu Hl V A T * (Cf + Dl)),
          shell_P_collision N Hu Hl V A T,
          pyRound2 (shell_P_collision N Hu Hl V A T * (Cf + Dl) * INSURANCE_COEFFICIENT),
          assign_risk_class (shell_P_collision N Hu Hl V A T), N⟩) ∧
    (∀ (N : ℕ) (r A C : ℝ), 0 < r →
      calculate_launch_collision_risk N r A C =
        Except.ok ⟨pyRound2 (launch_P_collision N r A * C),
          launch_P_collision N r A,
          pyRound2 (launch_P_collision N r A * C * INSURANCE_COEFFICIENT),
          assign_risk_class (launch_P_collision N r A), N⟩) := by
  constructor
  · intro N Hu Hl V A T Cf Dl hV
    unfold calculate_collision_financial_risk
    rw [if_neg (not_le.mpr hV)]
  · intro N r A C hr
    unfold calculate_launch_collision_risk
    rw [if_neg (not_le.mpr hr)]

theorem risk_report_fields_rounded_witness :
    0 < V_shell 100 0 ∧ (0:ℝ) < 1 ∧
    calculate_collision_financial_risk 5 100 0 7 1 1 10 20 =
      Except.ok ⟨pyRound2 (shell_P_collision 5 100 0 7 1 1 * (10 + 20)),
        shell_P_collision 5 100 0 7 1 1,
        pyRound2 (shell_P_collision 5 100 0 7 1 1 * (10 + 20) * INSURANCE_COEFFICIENT),
        assign_risk_class (shell_P_collision 5 100 0 7 1 1), 5⟩ ∧
    calculate_launch_collision_risk 1 1 2 100 =
      Except.ok ⟨pyRound2 (launch_P_collision 1 1 2 * 100),
        launch_P_collision 1 1 2,
        pyRound2 (launch_P_collision 1 1 2 * 100 * INSURANCE_COEFFICIENT),
        assign_risk_class (launch_P_collision 1 1 2), 1⟩ :=
  ⟨V_shell_100_0_pos, one_pos,
   risk_report_fields_rounded.1 5 100 0 7 1 1 10 20 V_shell_100_0_pos,
   risk_report_fields_rounded.2 1 1 2 100 one_pos⟩

/-! ## Helper lemmas: trajectory generator -/

lemma pyInt_nonpos {a : ℝ} (ha : a ≤ 0) : pyInt a ≤ 0 := by
  unfold pyInt
  split_ifs with h
  · have h0 : a = 0 := le_antisymm ha h
    simp [h0]
  · exact Int.ceil_le.mpr (by exact_mod_cast ha)

lemma pyInt_ofNat_100 : pyInt (100 : ℝ) = 100 := by
  unfold pyInt
  rw [if_pos (by norm_num : (0:ℝ) ≤ 100)]
  have h : ((100 : ℤ) : ℝ) = (100 : ℝ) := by norm_num
  rw [← h, Int.floor_intCast]

lemma simplified_geo_points_length (lat lon alt a incl : ℝ) :
    (simplified_geo_points lat lon alt a incl).length = (pyInt a + 19).toNat / 10 := by
  unfold simplified_geo_points pyRange10
  rw [List.length_map, List.length_map, List.length_range]
  congr 1
  omega

lemma raw_trajectory_length (w : ℝ → ℝ → ℝ → ℝ → ℝ × ℝ × ℝ) (d : ℝ)
    (l : List GeoPoint) :
    (raw_trajectory w d l).length = min l.length (l.length - 1) := by
  unfold raw_trajectory
  rw [List.length_map, List.length_zip, List.length_tail]

lemma trajectory_from_geo_points_spec (w : ℝ → ℝ → ℝ → ℝ → ℝ × ℝ × ℝ) (d : ℝ)
    (l : List GeoPoint) (h : ¬ l.length < 2) :
    (trajectory_from_geo_points w d l).length = l.length ∧
    (trajectory_from_geo_points w d l).getLast?.map (fun q => q.velocity) =
      (trajectory_from_geo_points w d l).dropLast.getLast?.map (fun q => q.velocity) := by
  have hl2 : 2 ≤ l.length := not_lt.mp h
  have hTlen : (raw_trajectory w d l).length = l.length - 1 := by
    rw [raw_trajectory_length]
    omega
  have hTne : raw_trajectory w d l ≠ [] := by
    intro h0
    rw [h0, List.length_nil] at hTlen
    omega
  obtain ⟨x, hx⟩ : ∃ x, (raw_trajectory w d l).getLast? = some x := by
    cases hq : (raw_trajectory w d l).getLast? with
    | none => exact absurd (List.getLast?_eq_none_iff.mp hq) hTne
    | some x => exact ⟨x, rfl⟩
  have hEm : (raw_trajectory w d l).isEmpty = false := List.isEmpty_eq_false.mpr hTne
  unfold trajectory_from_geo_points
  rw [if_neg h]
  simp only [hEm, Bool.false_eq_true, if_false, hx]
  constructor
  · rw [List.length_append, hTlen]
    simp only [List.length_singleton]
    omega
  · rw [List.getLast?_concat, List.dropLast_concat, hx]
    simp

/-- C9: the kinematic trajectory generator returns an empty sequence whenever
`ascent_time_s ≤ 0` (in that case at most one geographic point results); for
`ascent_time_s = 100` with the fixed 10 s step it returns exactly
`⌈100/10⌉+1 = 11` trajectory points, and the final point reuses the velocity
of the prior segment (its velocity equals that of the preceding point). -/
theorem generate_trajectory_count_and_last_velocity :
    (∀ (w : ℝ → ℝ → ℝ → ℝ → ℝ × ℝ × ℝ) (lat lon alt incl d a : ℝ), a ≤ 0 →
      generate_simplified_trajectory w lat lon alt a incl d = []) ∧
    (∀ (w : ℝ → ℝ → ℝ → ℝ → ℝ × ℝ × ℝ) (lat lon alt incl d : ℝ),
      (generate_simplified_trajectory w lat lon alt 100 incl d).length = 11 ∧
      (generate_simplified_trajectory w lat lon alt 100 incl d).getLast?.map
          (fun q => q.velocity) =
        (generate_simplified_trajectory w lat lon alt 100 incl d).dropLast.getLast?.map
          (fun q => q.velocity)) := by
  constructor
  · intro w lat lon alt incl d a ha
    have hlen : (simplified_geo_points lat lon alt a incl).length < 2 := by
      rw [simplified_geo_points_length]
      have := pyInt_nonpos ha
      omega
    unfold generate_simplified_trajectory trajectory_from_geo_points
    rw [if_pos hlen]
  · intro w lat lon alt incl d
    have hlen : (simplified_geo_points lat lon alt 100 incl).length = 11 := by
      rw [simplified_geo_points_length, pyInt_ofNat_100]
      decide
    have h2 : ¬ (simplified_geo_points lat lon alt 100 incl).length < 2 := by
      omega
    have hspec := trajectory_from_geo_points_spec w d
      (simplified_geo_points lat lon alt 100 incl) h2
    unfold generate_simplified_trajectory
    exact ⟨by rw [hspec.1, hlen], hspec.2⟩

theorem generate_trajectory_count_witness :
    (0:ℝ) ≤ 0 ∧
    generate_simplified_trajectory (fun _ _ _ _ => (0, 0, 0)) 0 0 500 0 45 0 = [] ∧
    (generate_simplified_trajectory (fun _ _ _ _ => (0, 0, 0)) 0 0 500 100 45 0).length
      = 11 :=
  ⟨le_refl 0,
   generate_trajectory_count_and_last_velocity.1 (fun _ _ _ _ => (0, 0, 0))
     0 0 500 45 0 0 (le_refl 0),
   (generate_trajectory_count_and_last_velocity.2 (fun _ _ _ _ => (0, 0, 0))
     0 0 500 45 0).1⟩

/-! ## Claim theorem: the CPA solver -/

/-- C10 (spec-modelled: `utils/cpa_calculator.py` is not under `src/`): the
CPA solver returns `t* = -(Δp·Δv)/(Δv·Δv)` and distance `‖Δp + t*·Δv‖` when
the relative velocity is not near-zero, and for two bodies with identical
velocities it returns `t* = 0` and a distance equal to the norm of the
initial separation. -/
theorem calculate_cpa_spec (pos_a vel_a pos_b vel_b : ℝ × ℝ × ℝ) :
    (CPA_EPSILON < dot3 (vel_b - vel_a) (vel_b - vel_a) →
      calculate_cpa pos_a vel_a pos_b vel_b =
        ⟨-(dot3 (pos_b - pos_a) (vel_b - vel_a)) / dot3 (vel_b - vel_a) (vel_b - vel_a),
          norm3 ((pos_b - pos_a) +
            (-(dot3 (pos_b - pos_a) (vel_b - vel_a)) /
              dot3 (vel_b - vel_a) (vel_b - vel_a)) • (vel_b - vel_a))⟩) ∧
    (vel_a = vel_b →
      (calculate_cpa pos_a vel_a pos_b vel_b).time = 0 ∧
      (calculate_cpa pos_a vel_a pos_b vel_b).distance = norm3 (pos_b - pos_a)) := by
  constructor
  · intro h
    simp only [calculate_cpa]
    rw [if_neg (not_le.mpr h)]
  · intro h
    subst h
    simp only [calculate_cpa, sub_self]
    rw [if_pos (show dot3 (0 : ℝ × ℝ × ℝ) 0 ≤ CPA_EPSILON by
      norm_num [dot3, CPA_EPSILON])]
    constructor
    · rfl
    · simp

theorem calculate_cpa_spec_witness :
    (CPA_EPSILON < dot3 (((1, 0, 0) : ℝ × ℝ × ℝ) - (0, 0, 0))
        (((1, 0, 0) : ℝ × ℝ × ℝ) - (0, 0, 0)) ∧
      calculate_cpa (0, 0, 0) (0, 0, 0) (3, 4, 0) (1, 0, 0) =
        ⟨-(dot3 (((3, 4, 0) : ℝ × ℝ × ℝ) - (0, 0, 0))
              (((1, 0, 0) : ℝ × ℝ × ℝ) - (0, 0, 0))) /
            dot3 (((1, 0, 0) : ℝ × ℝ × ℝ) - (0, 0, 0))
              (((1, 0, 0) : ℝ × ℝ × ℝ) - (0, 0, 0)),
          norm3 ((((3, 4, 0) : ℝ × ℝ × ℝ) - (0, 0, 0)) +
            (-(dot3 (((3, 4, 0) : ℝ × ℝ × ℝ) - (0, 0, 0))
                  (((1, 0, 0) : ℝ × ℝ × ℝ) - (0, 0, 0))) /
              dot3 (((1, 0, 0) : ℝ × ℝ × ℝ) - (0, 0, 0))
                (((1, 0, 0) : ℝ × ℝ × ℝ) - (0, 0, 0))) •
              (((1, 0, 0) : ℝ × ℝ × ℝ) - (0, 0, 0)))⟩) ∧
    ((calculate_cpa (0, 0, 0) (5, 5, 5) (3, 4, 0) (5, 5, 5)).time = 0 ∧
      (calculate_cpa (0, 0, 0) (5, 5, 5) (3, 4, 0) (5, 5, 5)).distance =
        norm3 (((3, 4, 0) : ℝ × ℝ × ℝ) - (0, 0, 0))) :=
  ⟨⟨by norm_num [dot3, CPA_EPSILON, Prod.sub_def],
    (calculate_cpa_spec (0, 0, 0) (0, 0, 0) (3, 4, 0) (1, 0, 0)).1
      (by norm_num [dot3, CPA_EPSILON, Prod.sub_def])⟩,
   (calculate_cpa_spec (0, 0, 0) (5, 5, 5) (3, 4, 0) (5, 5, 5)).2 rfl⟩

/-! ## Helper lemmas: altitude to mean motion -/

lemma altitude_to_mean_motion_neg {a : ℝ} (h : a < 0) : altitude_to_mean_motion a = 0 := by
  unfold altitude_to_mean_motion
  rw [if_pos h]
  norm_num

lemma orbit_period_pos {a : ℝ} (h : 0 ≤ a) :
    0 < 2 * Real.pi * Real.sqrt ((EARTH_RADIUS_KM + a) ^ 3 / MU_KM3_PER_S2) := by
  have hR : (0:ℝ) < EARTH_RADIUS_KM := by norm_num [EARTH_RADIUS_KM]
  have hMU : (0:ℝ) < MU_KM3_PER_S2 := by norm_num [MU_KM3_PER_S2]
  have hr : (0:ℝ) < EARTH_RADIUS_KM + a := by linarith
  have hX : (0:ℝ) < (EARTH_RADIUS_KM + a) ^ 3 / MU_KM3_PER_S2 := by positivity
  have := Real.sqrt_pos.mpr hX
  positivity

lemma altitude_to_mean_motion_eq {a : ℝ} (h : 0 ≤ a) :
    altitude_to_mean_motion a =
      86400 / (2 * Real.pi * Real.sqrt ((EARTH_RADIUS_KM + a) ^ 3 / MU_KM3_PER_S2)) := by
  unfold altitude_to_mean_motion
  rw [if_neg (not_lt.mpr h)]
  simp only []
  rw [if_neg (orbit_period_pos h).ne']
  norm_num

lemma altitude_to_mean_motion_lt {a b : ℝ} (ha : 0 ≤ a) (hab : a < b) :
    altitude_to_mean_motion b < altitude_to_mean_motion a := by
  have hb : (0:ℝ) ≤ b := le_of_lt (lt_of_le_of_lt ha hab)
  rw [altitude_to_mean_motion_eq ha, altitude_to_mean_motion_eq hb]
  have hR : (0:ℝ) < EARTH_RADIUS_KM := by norm_num [EARTH_RADIUS_KM]
  have hMU : (0:ℝ) < MU_KM3_PER_S2 := by norm_num [MU_KM3_PER_S2]
  have hra : (0:ℝ) < EARTH_RADIUS_KM + a := by linarith
  have hper : 2 * Real.pi * Real.sqrt ((EARTH_RADIUS_KM + a) ^ 3 / MU_KM3_PER_S2) <
      2 * Real.pi * Real.sqrt ((EARTH_RADIUS_KM + b) ^ 3 / MU_KM3_PER_S2) := by
    have hXX : (EARTH_RADIUS_KM + a) ^ 3 / MU_KM3_PER_S2 <
        (EARTH_RADIUS_KM + b) ^ 3 / MU_KM3_PER_S2 := by
      gcongr
    have := Real.sqrt_lt_sqrt (by positivity) hXX
    have h2pi : (0:ℝ) < 2 * Real.pi := by positivity
    exact mul_lt_mul_of_pos_left this h2pi
  exact div_lt_div_of_pos_left (by norm_num) (orbit_period_pos ha) hper

lemma one_le_mm_five : 1 ≤ altitude_to_mean_motion 5 := by
  rw [altitude_to_mean_motion_eq (by norm_num)]
  rw [le_div_iff (orbit_period_pos (by norm_num))]
  have hX : (EARTH_RADIUS_KM + 5) ^ 3 / MU_KM3_PER_S2 ≤ 12000 ^ 2 := by
    rw [div_le_iff (by norm_num [MU_KM3_PER_S2])]
    norm_num [EARTH_RADIUS_KM, MU_KM3_PER_S2]
  have hs : Real.sqrt ((EARTH_RADIUS_KM + 5) ^ 3 / MU_KM3_PER_S2) ≤ 12000 :=
    le_trans (Real.sqrt_le_sqrt hX) (le_of_eq (Real.sqrt_sq (by norm_num)))
  have hmul : Real.pi * Real.sqrt ((EARTH_RADIUS_KM + 5) ^ 3 / MU_KM3_PER_S2) ≤
      3.15 * 12000 :=
    mul_le_mul Real.pi_lt_d2.le hs (Real.sqrt_nonneg _) (by norm_num)
  nlinarith

/-! ## Helper lemmas: the congestion analyzer fold -/

lemma processObject_eq (propagate : String → String → Option (ℝ × ℝ))
    (mn mx mi ma : ℝ) (st : CongestionMap × List SatData) (sat : SatData) :
    processObject propagate mn mx mi ma st sat =
      match extractAccepted propagate mn mx mi ma sat with
      | none => st
      | some p => (updateCell st.1 (cellKey p.1 p.2) p.1 p.2, st.2 ++ [sat]) := by
  unfold processObject extractAccepted
  cases h1 : (py_truthy sat.line1 && py_truthy sat.line2) with
  | false => simp [h1]
  | true =>
    simp only [h1, if_true]
    cases h2 : propagate (sat.line1.getD "") (sat.line2.getD "") with
    | none => simp
    | some p =>
      obtain ⟨no_kozai, inclo⟩ := p
      by_cases h3 : mn ≤ mean_motion_of no_kozai ∧ mean_motion_of no_kozai ≤ mx
      · by_cases h4 : mi ≤ inclination_deg_of inclo ∧ inclination_deg_of inclo ≤ ma
        · simp [h3, h4]
        · simp [h3, h4]
      · simp [h3]

lemma foldl_processObject (propagate : String → String → Option (ℝ × ℝ))
    (mn mx mi ma : ℝ) :
    ∀ (objs : List SatData) (m : CongestionMap) (acc : List SatData),
      objs.foldl (processObject propagate mn mx mi ma) (m, acc) =
        ((acceptedData propagate mn mx mi ma objs).foldl
            (fun mp p => updateCell mp (cellKey p.1 p.2) p.1 p.2) m,
          acc ++ objs.filter
            (fun s => (extractAccepted propagate mn mx mi ma s).isSome)) := by
  intro objs
  induction objs with
  | nil =>
    intro m acc
    simp [acceptedData]
  | cons sat rest ih =>
    intro m acc
    rw [List.foldl_cons, processObject_eq]
    cases hx : extractAccepted propagate mn mx mi ma sat with
    | none =>
      simp only []
      rw [ih]
      simp [acceptedData, List.filterMap_cons, hx, List.filter_cons]
    | some p =>
      simp only []
      rw [ih]
      simp only [acceptedData, List.filterMap_cons, hx, List.filter_cons,
        Option.isSome_some, if_pos, List.foldl_cons]
      rw [List.append_assoc, List.singleton_append]

lemma calculate_orbit_eq (propagate : String → String → Option (ℝ × ℝ))
    (objs : List SatData) (amin amax imin imax : ℝ) :
    calculate_orbit_congestion_by_altitude propagate objs amin amax imin imax =
      (buildCongestionMap (acceptedData propagate (altitude_to_mean_motion amax)
          (altitude_to_mean_motion amin) imin imax objs),
        objs.filter (fun s => (extractAccepted propagate (altitude_to_mean_motion amax)
          (altitude_to_mean_motion amin) imin imax s).isSome)) := by
  unfold calculate_orbit_congestion_by_altitude buildCongestionMap
  rw [foldl_processObject]
  rw [List.nil_append]

lemma buildCongestionMap_concat (l : List (ℝ × ℝ)) (p : ℝ × ℝ) :
    buildCongestionMap (l ++ [p]) =
      updateCell (buildCongestionMap l) (cellKey p.1 p.2) p.1 p.2 := by
  unfold buildCongestionMap
  rw [List.foldl_append, List.foldl_cons, List.foldl_nil]

lemma cellMembers_nil (k : ℝ × ℤ) : cellMembers [] k = [] := rfl

lemma cellMembers_concat (l : List (ℝ × ℝ)) (p : ℝ × ℝ) (k : ℝ × ℤ) :
    cellMembers (l ++ [p]) k =
      cellMembers l k ++ if cellKey p.1 p.2 = k then [p] else [] := by
  unfold cellMembers
  rw [List.filter_append]
  congr 1
  by_cases h : cellKey p.1 p.2 = k
  · simp [List.filter_cons, h]
  · simp [List.filter_cons, h]

lemma buildCongestionMap_apply (l : List (ℝ × ℝ)) :
    ∀ k : ℝ × ℤ,
      buildCongestionMap l k =
        if (cellMembers l k).length = 0 then none
        else some ⟨(cellMembers l k).length,
          ((cellMembers l k).map Prod.snd).sum / ((cellMembers l k).length : ℝ),
          ((cellMembers l k).map Prod.fst).sum / ((cellMembers l k).length : ℝ)⟩ := by
  induction l using List.reverseRecOn with
  | nil =>
    intro k
    simp [buildCongestionMap, emptyCongestionMap, cellMembers]
  | append_singleton l p ih =>
    intro k
    rw [buildCongestionMap_concat, cellMembers_concat]
    by_cases hk : cellKey p.1 p.2 = k
    · rw [if_pos hk]
      simp only [updateCell]
      rw [if_pos hk.symm, hk, ih k]
      by_cases h0 : (cellMembers l k).length = 0
      · have hme : cellMembers l k = [] := List.length_eq_zero.mp h0
        rw [if_pos h0, hme]
        simp only [Option.getD_none, List.nil_append, List.length_singleton,
          List.map_cons, List.map_nil, List.sum_cons, List.sum_nil]
        rw [if_neg (by norm_num)]
        norm_num
      · rw [if_neg h0]
        simp only [Option.getD_some]
        have hn : ((cellMembers l k).length : ℝ) ≠ 0 := by
          exact_mod_cast h0
        rw [if_neg (by simp)]
        simp only [List.length_append, List.length_singleton, List.map_append,
          List.sum_append, List.map_cons, List.map_nil, List.sum_cons, List.sum_nil]
        congr 1
        simp only [CongestionCell.mk.injEq]
        refine ⟨trivial, ?_, ?_⟩
        · rw [div_mul_cancel₀ _ hn]
          push_cast
          ring
        · rw [div_mul_cancel₀ _ hn]
          push_cast
          ring
    · rw [if_neg hk]
      simp only [updateCell]
      rw [if_neg (fun h => hk h.symm), List.append_nil]
      exact ih k

lemma buildCongestionMap_perm {l l₂ : List (ℝ × ℝ)} (h : l.Perm l₂) :
    buildCongestionMap l = buildCongestionMap l₂ := by
  funext k
  rw [buildCongestionMap_apply, buildCongestionMap_apply]
  have hm : (cellMembers l k).Perm (cellMembers l₂ k) := h.filter _
  have hs1 := (hm.map Prod.snd).sum_eq
  have hs2 := (hm.map Prod.fst).sum_eq
  rw [hm.length_eq, hs1, hs2]

lemma extractAccepted_isSome_iff (propagate : String → String → Option (ℝ × ℝ))
    (mn mx mi ma : ℝ) (sat : SatData) :
    (extractAccepted propagate mn mx mi ma sat).isSome = true ↔
      (py_truthy sat.line1 = true ∧ py_truthy sat.line2 = true ∧
        ∃ no_kozai inclo : ℝ,
          propagate (sat.line1.getD "") (sat.line2.getD "") = some (no_kozai, inclo) ∧
          mn ≤ mean_motion_of no_kozai ∧ mean_motion_of no_kozai ≤ mx ∧
          mi ≤ inclination_deg_of inclo ∧ inclination_deg_of inclo ≤ ma) := by
  unfold extractAccepted
  cases h1 : (py_truthy sat.line1 && py_truthy sat.line2) with
  | false =>
    simp only [h1, Bool.false_eq_true, if_false, Option.isSome_none,
      Bool.false_eq_true, false_iff]
    rintro ⟨ht1, ht2, -⟩
    rw [ht1, ht2] at h1
    simp at h1
  | true =>
    obtain ⟨ht1, ht2⟩ := Bool.and_eq_true_iff.mp h1
    simp only [h1, if_true]
    cases h3 : propagate (sat.line1.getD "") (sat.line2.getD "") with
    | none =>
      simp [h3]
    | some p =>
      obtain ⟨nk, io⟩ := p
      by_cases h4 : mn ≤ mean_motion_of nk ∧ mean_motion_of nk ≤ mx
      · by_cases h5 : mi ≤ inclination_deg_of io ∧ inclination_deg_of io ≤ ma
        · simp only [h3, if_pos h4, if_pos h5, Option.isSome_some, true_iff]
          exact ⟨ht1, ht2, nk, io, rfl, h4.1, h4.2, h5.1, h5.2⟩
        · simp only [h3, if_pos h4, if_neg h5, Option.isSome_none,
            Bool.false_eq_true, false_iff]
          rintro ⟨-, -, nk₂, io₂, heq, -, -, hc3, hc4⟩
          have h6 := heq
          simp only [Option.some.injEq, Prod.mk.injEq] at h6
          exact h5 ⟨h6.2 ▸ hc3, h6.2 ▸ hc4⟩
      · simp only [h3, if_neg h4, Option.isSome_none, Bool.false_eq_true, false_iff]
        rintro ⟨-, -, nk₂, io₂, heq, hc1, hc2, -, -⟩
        have h6 := heq
        simp only [Option.some.injEq, Prod.mk.injEq] at h6
        exact h4 ⟨h6.1 ▸ hc1, h6.1 ▸ hc2⟩


/-- C6: an object is included in the returned filtered list, and folded into
the congestion map, iff both TLE lines are present (non-empty), propagation
succeeds, its mean motion lies inclusively between the bound derived from the
upper altitude bound and the bound derived from the lower altitude bound (the
lower altitude bound mapping to the upper mean-motion bound), and its
inclination lies inclusively within `[min_inclination, max_inclination]`;
objects with missing/empty TLE lines or failing propagation contribute
nothing. -/
theorem congestion_filter_membership (propagate : String → String → Option (ℝ × ℝ))
    (objs : List SatData) (min_altitude_km max_altitude_km min_inclination
      max_inclination : ℝ) :
    calculate_orbit_congestion_by_altitude propagate objs min_altitude_km
        max_altitude_km min_inclination max_inclination =
      (buildCongestionMap (acceptedData propagate
          (altitude_to_mean_motion max_altitude_km)
          (altitude_to_mean_motion min_altitude_km)
          min_inclination max_inclination objs),
        objs.filter (fun s => (extractAccepted propagate
          (altitude_to_mean_motion max_altitude_km)
          (altitude_to_mean_motion min_altitude_km)
          min_inclination max_inclination s).isSome)) ∧
    ∀ sat : SatData,
      sat ∈ (calculate_orbit_congestion_by_altitude propagate objs min_altitude_km
          max_altitude_km min_inclination max_inclination).2 ↔
        sat ∈ objs ∧ py_truthy sat.line1 = true ∧ py_truthy sat.line2 = true ∧
        ∃ no_kozai inclo : ℝ,
          propagate (sat.line1.getD "") (sat.line2.getD "") = some (no_kozai, inclo) ∧
          altitude_to_mean_motion max_altitude_km ≤ mean_motion_of no_kozai ∧
          mean_motion_of no_kozai ≤ altitude_to_mean_motion min_altitude_km ∧
          min_inclination ≤ inclination_deg_of inclo ∧
          inclination_deg_of inclo ≤ max_inclination := by
  refine ⟨calculate_orbit_eq propagate objs min_altitude_km max_altitude_km
    min_inclination max_inclination, ?_⟩
  intro sat
  rw [calculate_orbit_eq]
  rw [List.mem_filter]
  rw [extractAccepted_isSome_iff]

/-- C5: every cell of the returned congestion map carries the exact count and
the plain arithmetic means (sum / count) of the inclinations and mean motions
of the accepted objects falling in that cell, and the final map is invariant
under any permutation of the input order. -/
theorem congestion_cell_mean_and_perm (propagate : String → String → Option (ℝ × ℝ))
    (objs : List SatData) (min_altitude_km max_altitude_km min_inclination
      max_inclination : ℝ) :
    (∀ (k : ℝ × ℤ) (cell : CongestionCell),
      (calculate_orbit_congestion_by_altitude propagate objs min_altitude_km
          max_altitude_km min_inclination max_inclination).1 k = some cell →
      cell.count = (cellMembers (acceptedData propagate
          (altitude_to_mean_motion max_altitude_km)
          (altitude_to_mean_motion min_altitude_km)
          min_inclination max_inclination objs) k).length ∧
      cell.avg_inclination = ((cellMembers (acceptedData propagate
          (altitude_to_mean_motion max_altitude_km)
          (altitude_to_mean_motion min_altitude_km)
          min_inclination max_inclination objs) k).map Prod.snd).sum /
        (((cellMembers (acceptedData propagate
          (altitude_to_mean_motion max_altitude_km)
          (altitude_to_mean_motion min_altitude_km)
          min_inclination max_inclination objs) k).length : ℝ)) ∧
      cell.avg_mean_motion = ((cellMembers (acceptedData propagate
          (altitude_to_mean_motion max_altitude_km)
          (altitude_to_mean_motion min_altitude_km)
          min_inclination max_inclination objs) k).map Prod.fst).sum /
        (((cellMembers (acceptedData propagate
          (altitude_to_mean_motion max_altitude_km)
          (altitude_to_mean_motion min_altitude_km)
          min_inclination max_inclination objs) k).length : ℝ))) ∧
    (∀ objs₂ : List SatData, objs.Perm objs₂ →
      (calculate_orbit_congestion_by_altitude propagate objs₂ min_altitude_km
          max_altitude_km min_inclination max_inclination).1 =
      (calculate_orbit_congestion_by_altitude propagate objs min_altitude_km
          max_altitude_km min_inclination max_inclination).1) := by
  constructor
  · intro k cell hcell
    have hfst : (calculate_orbit_congestion_by_altitude propagate objs min_altitude_km
        max_altitude_km min_inclination max_inclination).1 =
        buildCongestionMap (acceptedData propagate
          (altitude_to_mean_motion max_altitude_km)
          (altitude_to_mean_motion min_altitude_km)
          min_inclination max_inclination objs) := by
      rw [calculate_orbit_eq]
    rw [hfst, buildCongestionMap_apply] at hcell
    by_cases h0 : (cellMembers (acceptedData propagate
        (altitude_to_mean_motion max_altitude_km)
        (altitude_to_mean_motion min_altitude_km)
        min_inclination max_inclination objs) k).length = 0
    · rw [if_pos h0] at hcell
      exact absurd hcell (by simp)
    · rw [if_neg h0] at hcell
      simp only [Option.some.injEq] at hcell
      rw [← hcell]
      exact ⟨rfl, rfl, rfl⟩
  · intro objs₂ hperm
    have h1 : (calculate_orbit_congestion_by_altitude propagate objs₂ min_altitude_km
        max_altitude_km min_inclination max_inclination).1 =
        buildCongestionMap (acceptedData propagate
          (altitude_to_mean_motion max_altitude_km)
          (altitude_to_mean_motion min_altitude_km)
          min_inclination max_inclination objs₂) := by
      rw [calculate_orbit_eq]
    have h2 : (calculate_orbit_congestion_by_altitude propagate objs min_altitude_km
        max_altitude_km min_inclination max_inclination).1 =
        buildCongestionMap (acceptedData propagate
          (altitude_to_mean_motion max_altitude_km)
          (altitude_to_mean_motion min_altitude_km)
          min_inclination max_inclination objs) := by
      rw [calculate_orbit_eq]
    rw [h1, h2]
    apply buildCongestionMap_perm
    unfold acceptedData
    exact hperm.symm.filterMap _

/-! ## Concrete instances for the congestion analyzer -/

lemma mean_motion_of_W : mean_motion_of (Real.pi / 720) = 1 := by
  unfold mean_motion_of
  have h := Real.pi_ne_zero
  field_simp
  ring

lemma inclination_deg_of_W : inclination_deg_of (Real.pi / 4) = 45 := by
  unfold inclination_deg_of
  have h := Real.pi_ne_zero
  field_simp
  ring

lemma pyRoundInt_intCast (z : ℤ) : pyRoundInt (z : ℝ) = z := by
  unfold pyRoundInt
  rw [Int.fract_intCast, if_pos (by norm_num), Int.floor_intCast]

lemma pyRound1_one : pyRound1 (1 : ℝ) = 1 := by
  unfold pyRound1
  rw [show (10 : ℝ) * 1 = ((10 : ℤ) : ℝ) by norm_num, pyRoundInt_intCast]
  norm_num

lemma pyRoundInt_45 : pyRoundInt (45 : ℝ) = 45 := by
  rw [show (45 : ℝ) = ((45 : ℤ) : ℝ) by norm_num, pyRoundInt_intCast]

lemma cellKey_W : cellKey 1 45 = (1, 45) := by
  unfold cellKey
  rw [pyRound1_one, pyRoundInt_45]

lemma extract_W : extractAccepted propagateW (altitude_to_mean_motion (-1))
    (altitude_to_mean_motion 5) 0 90 satW = some (1, 45) := by
  have hprop : propagateW (satW.line1.getD "") (satW.line2.getD "") =
      some (Real.pi / 720, Real.pi / 4) := rfl
  unfold extractAccepted
  rw [if_pos (show (py_truthy satW.line1 && py_truthy satW.line2) = true by decide)]
  simp only [hprop, mean_motion_of_W, inclination_deg_of_W,
    altitude_to_mean_motion_neg (show (-1 : ℝ) < 0 by norm_num)]
  rw [if_pos ⟨by norm_num, one_le_mm_five⟩, if_pos ⟨by norm_num, by norm_num⟩]

lemma accepted_W : acceptedData propagateW (altitude_to_mean_motion (-1))
    (altitude_to_mean_motion 5) 0 90 [satW] = [(1, 45)] := by
  unfold acceptedData
  simp [List.filterMap, extract_W]

lemma analyze_W_fst : (calculate_orbit_congestion_by_altitude propagateW [satW]
    5 (-1) 0 90).1 (1, 45) = some ⟨1, 45, 1⟩ := by
  have h1 : (calculate_orbit_congestion_by_altitude propagateW [satW] 5 (-1) 0 90).1 =
      buildCongestionMap (acceptedData propagateW (altitude_to_mean_motion (-1))
        (altitude_to_mean_motion 5) 0 90 [satW]) := by
    rw [calculate_orbit_eq]
  rw [h1, accepted_W, buildCongestionMap_apply]
  have hm : cellMembers [((1 : ℝ), (45 : ℝ))] (1, 45) = [((1 : ℝ), (45 : ℝ))] := by
    unfold cellMembers
    simp [List.filter_cons, cellKey_W]
  rw [hm]
  rw [if_neg (by norm_num)]
  norm_num

lemma analyze_W_snd : (calculate_orbit_congestion_by_altitude propagateW [satW]
    5 (-1) 0 90).2 = [satW] := by
  have h2 : (calculate_orbit_congestion_by_altitude propagateW [satW] 5 (-1) 0 90).2 =
      [satW].filter (fun s => (extractAccepted propagateW
        (altitude_to_mean_motion (-1)) (altitude_to_mean_motion 5) 0 90 s).isSome) := by
    rw [calculate_orbit_eq]
  rw [h2]
  simp [List.filter_cons, extract_W]

theorem congestion_cell_mean_and_perm_witness :
    (calculate_orbit_congestion_by_altitude propagateW [satW] 5 (-1) 0 90).1 (1, 45) =
      some ⟨1, 45, 1⟩ ∧
    ((⟨1, 45, 1⟩ : CongestionCell).count = (cellMembers (acceptedData propagateW
        (altitude_to_mean_motion (-1)) (altitude_to_mean_motion 5) 0 90 [satW])
        (1, 45)).length ∧
      (⟨1, 45, 1⟩ : CongestionCell).avg_inclination = ((cellMembers (acceptedData
        propagateW (altitude_to_mean_motion (-1)) (altitude_to_mean_motion 5) 0 90
        [satW]) (1, 45)).map Prod.snd).sum / (((cellMembers (acceptedData propagateW
        (altitude_to_mean_motion (-1)) (altitude_to_mean_motion 5) 0 90 [satW])
        (1, 45)).length : ℝ)) ∧
      (⟨1, 45, 1⟩ : CongestionCell).avg_mean_motion = ((cellMembers (acceptedData
        propagateW (altitude_to_mean_motion (-1)) (altitude_to_mean_motion 5) 0 90
        [satW]) (1, 45)).map Prod.fst).sum / (((cellMembers (acceptedData propagateW
        (altitude_to_mean_motion (-1)) (altitude_to_mean_motion 5) 0 90 [satW])
        (1, 45)).length : ℝ))) ∧
    (calculate_orbit_congestion_by_altitude propagateW [satW] 5 (-1) 0 90).1 =
      (calculate_orbit_congestion_by_altitude propagateW [satW] 5 (-1) 0 90).1 :=
  ⟨analyze_W_fst,
   (congestion_cell_mean_and_perm propagateW [satW] 5 (-1) 0 90).1 (1, 45)
     ⟨1, 45, 1⟩ analyze_W_fst,
   (congestion_cell_mean_and_perm propagateW [satW] 5 (-1) 0 90).2 [satW]
     (List.Perm.refl _)⟩

/-- C4: the claim as stated is false.  With `H_lower = min_altitude_km = 5`
and `H_upper = max_altitude_km = -1` (so `H_lower > H_upper`), the negative
upper altitude maps to a mean-motion bound of `0`, so the filter window is
`[0, mm(5)]`, which is non-empty: an object propagating to mean motion `1`
rev/day and inclination `45°` is accepted and the returned filtered list is
not empty. -/
theorem congestion_decreasing_range_cex :
    (calculate_orbit_congestion_by_altitude propagateW [satW] 5 (-1) 0 90).2 ≠ [] := by
  rw [analyze_W_snd]
  simp

/-- C4 amended: for every object list and every altitude range with
`H_lower > H_upper` *and a non-negative upper bound* `H_upper ≥ 0` (forced by
the counterexample, which uses a negative `H_upper`), the congestion analyzer
returns an empty congestion map and an empty filtered list.  (A range with a
non-positive implied orbital period does not exist in the model: the period
`2π·sqrt(r³/μ)` is strictly positive whenever it is computed.) -/
theorem congestion_empty_for_decreasing_range
    (propagate : String → String → Option (ℝ × ℝ)) (objs : List SatData)
    (min_altitude_km max_altitude_km min_inclination max_inclination : ℝ)
    (h0 : 0 ≤ max_altitude_km) (hlt : max_altitude_km < min_altitude_km) :
    calculate_orbit_congestion_by_altitude propagate objs min_altitude_km
      max_altitude_km min_inclination max_inclination = (emptyCongestionMap, []) := by
  rw [calculate_orbit_eq]
  have hmm : altitude_to_mean_motion min_altitude_km <
      altitude_to_mean_motion max_altitude_km :=
    altitude_to_mean_motion_lt h0 hlt
  have hext : ∀ sat, extractAccepted propagate
      (altitude_to_mean_motion max_altitude_km)
      (altitude_to_mean_motion min_altitude_km)
      min_inclination max_inclination sat = none := by
    intro sat
    unfold extractAccepted
    cases h1 : (py_truthy sat.line1 && py_truthy sat.line2) with
    | false => simp [h1]
    | true =>
      simp only [h1, if_true]
      cases h3 : propagate (sat.line1.getD "") (sat.line2.getD "") with
      | none => simp [h3]
      | some p =>
        obtain ⟨nk, io⟩ := p
        simp only [h3]
        rw [if_neg]
        rintro ⟨ha, hb⟩
        linarith
  have hacc : acceptedData propagate
      (altitude_to_mean_motion max_altitude_km)
      (altitude_to_mean_motion min_altitude_km)
      min_inclination max_inclination objs = [] := by
    unfold acceptedData
    exact List.filterMap_eq_nil_iff.mpr (fun a _ => hext a)
  have hfil : objs.filter (fun s => (extractAccepted propagate
      (altitude_to_mean_motion max_altitude_km)
      (altitude_to_mean_motion min_altitude_km)
      min_inclination max_inclination s).isSome) = [] := by
    refine List.filter_eq_nil_iff.mpr (fun a _ => ?_)
    rw [hext a]
    simp
  rw [hacc, hfil]
  rfl

theorem congestion_empty_for_decreasing_range_witness :
    (0:ℝ) ≤ 10 ∧ (10:ℝ) < 20 ∧
    calculate_orbit_congestion_by_altitude propagateW [satW] 20 10 0 90 =
      (emptyCongestionMap, []) :=
  ⟨by norm_num, by norm_num,
   congestion_empty_for_decreasing_range propagateW [satW] 20 10 0 90
     (by norm_num) (by norm_num)⟩
